import Mathlib

/-!
Shallow embedding of the hydrus-sub-monitor core: the entity model
(`src/models/subscription.py`), the persistence engine
(`src/models/database.py`), the ranking & coloring engine
(`src/controllers/main_controller.py`, `src/utils/formatters.py`,
`src/views/widgets/query_tree.py`), together with theorems checking the
specification's claims against these definitions.

Machine integers of the source are modelled as `Int`/`Nat` (Python ints are
unbounded).  Python float arithmetic in the color gradient is modelled with
`Rat`; Python `int()` truncation toward zero is `py_int` below.  Fallible
sqlite operations are modelled with explicit failure flags / oracles: a
`true` flag (or a `true` oracle answer at a step) means the corresponding
sqlite call raised at that point.  Audit-timestamp columns
(`created_at`/`updated_at`) are omitted: no inspected behavior reads them.
-/

namespace HydrusSubMonitor

/-- Entity model `Query` (src/models/subscription.py, class Query). -/
structure Query where
  id : Option Int
  query_text : String
  human_name : String
  display_name : String
  last_check_time : Int
  next_check_time : Int
  next_check_status : String
  paused : Bool
  dead : Bool
  checking_now : Bool
  can_check_now : Bool
  checker_status : Int
  file_velocity : List Int
  file_seed_cache_status : String
  last_file_time : Int
  acknowledged : Bool := false
  acknowledged_time : Int := 0
deriving DecidableEq, Repr

/-- Entity model `Subscription` (src/models/subscription.py). -/
structure Subscription where
  name : String
  gug_name : String
  queries : List Query
deriving DecidableEq, Repr

/-- Entity model `SubscriptionData` (src/models/subscription.py). -/
structure SubscriptionData where
  subscriptions : List Subscription
  version : Int
  hydrus_version : String
deriving DecidableEq, Repr

/-- `Query.is_expired_acknowledgment` (src/models/subscription.py lines 78-83);
the Python property reads `datetime.now()`, modelled as the explicit `now`
argument. -/
def is_expired_acknowledgment (q : Query) (now : Int) : Bool :=
  if !q.acknowledged || q.acknowledged_time == 0 then false
  else q.acknowledged_time ≤ now

/-- RGB color triple, standing for PyQt's `QColor(r, g, b)`. -/
structure Color where
  red : Int
  green : Int
  blue : Int
deriving DecidableEq, Repr

/-- Python `int()` applied to a float: truncation toward zero, modelled on
exact rationals. -/
def py_int (q : ℚ) : ℤ :=
  if 0 ≤ q then ⌊q⌋ else ⌈q⌉

/-- `get_color_for_age` (src/utils/formatters.py lines 15-36). -/
def get_color_for_age (last_file_time min_time max_time : Int) : Color :=
  if last_file_time = 0 then
    ⟨240, 240, 240⟩
  else if min_time = max_time then
    ⟨255, 220, 180⟩
  else
    let age_ratio : ℚ :=
      ((max_time : ℚ) - (last_file_time : ℚ)) / ((max_time : ℚ) - (min_time : ℚ))
    ⟨255, py_int (240 - age_ratio * 100), py_int (200 - age_ratio * 140)⟩

/-- `get_status_color` (src/utils/formatters.py lines 39-52); `none` models
the Python `None` return ("will use age-based coloring"). -/
def get_status_color (q : Query) (ack_time now : Int) : Option Color :=
  if q.acknowledged = true ∧ (ack_time = 0 ∨ ack_time > now) then
    some ⟨200, 255, 200⟩
  else if q.dead = true then
    some ⟨255, 200, 200⟩
  else if q.paused = true then
    some ⟨230, 230, 230⟩
  else
    none

/-- Color selection of `_create_query_item`
(src/views/widgets/query_tree.py lines 132-136): the status color when it
applies, otherwise the age gradient. -/
def final_color (q : Query) (now min_time max_time : Int) : Color :=
  match get_status_color q q.acknowledged_time now with
  | some c => c
  | none => get_color_for_age q.last_file_time min_time max_time

/-- The `valid_times` list comprehension of `populate_queries`
(src/views/widgets/query_tree.py lines 68-69). -/
def valid_times (queries : List (String × Query)) : List Int :=
  (queries.filter
    (fun p => decide (p.2.last_file_time > 0) && !p.2.acknowledged)).map
    (fun p => p.2.last_file_time)

/-- The `min_time`/`max_time` computation of `populate_queries`
(src/views/widgets/query_tree.py lines 70-74); Python `min`/`max` over a
nonempty list is a fold. -/
def min_max_times (queries : List (String × Query)) : Int × Int :=
  match valid_times queries with
  | [] => (0, 0)
  | t :: ts => (ts.foldl min t, ts.foldl max t)

/-- The `sort_key` closure of `get_all_queries_sorted`
(src/controllers/main_controller.py lines 103-113). -/
def sort_key (item : String × Query) : Nat × Int :=
  let query := item.2
  if query.acknowledged then (2, query.last_file_time)
  else if query.last_file_time = 0 then (1, 0)
  else (0, query.last_file_time)

/-- Lexicographic comparison of Python tuples, as used by `list.sort(key=...)`
on the `sort_key` values. -/
def key_le (a b : String × Query) : Prop :=
  (sort_key a).1 < (sort_key b).1 ∨
    ((sort_key a).1 = (sort_key b).1 ∧ (sort_key a).2 ≤ (sort_key b).2)

instance : DecidableRel key_le := fun a b => by
  unfold key_le; infer_instance

instance : IsTotal (String × Query) key_le := by
  constructor
  intro a b
  unfold key_le
  omega

instance : IsTrans (String × Query) key_le := by
  constructor
  intro a b c hab hbc
  unfold key_le at *
  omega

/-- `get_filtered_subscriptions` (src/controllers/main_controller.py
lines 72-81); the optional current filter is the `filt` argument. -/
def get_filtered_subscriptions (data : SubscriptionData)
    (filt : Option String) : List Subscription :=
  match filt with
  | none => data.subscriptions
  | some name =>
    match data.subscriptions.find? (fun s => s.name == name) with
    | some sub => [sub]
    | none => []

/-- The flattening loop of `get_all_queries_sorted`
(src/controllers/main_controller.py lines 92-97). -/
def all_query_pairs (data : SubscriptionData) (filt : Option String) :
    List (String × Query) :=
  (get_filtered_subscriptions data filt).flatMap
    (fun sub => sub.queries.map (fun q => (sub.name, q)))

/-- `get_all_queries_sorted` (src/controllers/main_controller.py
lines 87-116).  Python `list.sort` is a stable sort by key; it is modelled by
`List.insertionSort`, which is stable and sorts by the same total preorder
`key_le` (any two stable sorts by the same key agree). -/
def get_all_queries_sorted (data : SubscriptionData) (filt : Option String) :
    List (String × Query) :=
  (all_query_pairs data filt).insertionSort key_le

/-- A row of the `subscriptions` table (src/models/database.py lines 30-38;
audit timestamps omitted). -/
structure SubRow where
  id : Nat
  name : String
  gug_name : String
deriving DecidableEq, Repr

/-- A row of the `queries` table (src/models/database.py lines 41-64;
`file_velocity_data` holds the serialized `file_velocity`, modelled by the
unserialized value since `json.dumps`/`json.loads` round-trip). -/
structure QueryRow where
  id : Nat
  subscription_id : Nat
  query_text : String
  human_name : String
  display_name : String
  last_check_time : Int
  next_check_time : Int
  next_check_status : String
  paused : Bool
  dead : Bool
  checking_now : Bool
  can_check_now : Bool
  checker_status : Int
  file_velocity : List Int
  file_seed_cache_status : String
  last_file_time : Int
  acknowledged : Bool
  acknowledged_time : Int
deriving DecidableEq, Repr

/-- The two relations of the live sqlite store, plus the AUTOINCREMENT
sequences (which survive `DELETE FROM`). -/
structure DBState where
  subscriptions : List SubRow
  queries : List QueryRow
  next_sub_id : Nat
  next_query_id : Nat
deriving DecidableEq, Repr

/-- A subscription record of the incoming API payload, after the
`dict.get` defaulting of `save_subscription_data`. -/
structure PQuery where
  query_text : String
  human_name : String
  display_name : String
  last_check_time : Int
  next_check_time : Int
  next_check_status : String
  paused : Bool
  dead : Bool
  checking_now : Bool
  can_check_now : Bool
  checker_status : Int
  file_velocity : List Int
  file_seed_cache_status : String
  last_file_time : Int
deriving DecidableEq, Repr

/-- A payload subscription with its nested queries. -/
structure PSub where
  name : String
  gug_name : String
  queries : List PQuery
deriving DecidableEq, Repr

/-- The query INSERT of `save_subscription_data` (src/models/database.py
lines 206-230): the acknowledgment columns are not in the column list, so
the rows take the schema defaults `acknowledged = 0`,
`acknowledged_time = 0`. -/
def mkQueryRow (qid sid : Nat) (q : PQuery) : QueryRow :=
  { id := qid
    subscription_id := sid
    query_text := q.query_text
    human_name := q.human_name
    display_name := q.display_name
    last_check_time := q.last_check_time
    next_check_time := q.next_check_time
    next_check_status := q.next_check_status
    paused := q.paused
    dead := q.dead
    checking_now := q.checking_now
    can_check_now := q.can_check_now
    checker_status := q.checker_status
    file_velocity := q.file_velocity
    file_seed_cache_status := q.file_seed_cache_status
    last_file_time := q.last_file_time
    acknowledged := false
    acknowledged_time := 0 }

/-- The inner query-insert loop of `save_subscription_data`; `oracle step`
answers whether the sqlite INSERT at that step raises.  `none` models a
raised exception. -/
def insertQueryRows (pending : DBState) (sid : Nat) (qs : List PQuery)
    (oracle : Nat → Bool) (step : Nat) : Option (DBState × Nat) :=
  match qs with
  | [] => some (pending, step)
  | q :: rest =>
    if oracle step then none
    else
      insertQueryRows
        { pending with
            queries := pending.queries ++ [mkQueryRow pending.next_query_id sid q]
            next_query_id := pending.next_query_id + 1 }
        sid rest oracle (step + 1)

/-- The outer subscription-insert loop of `save_subscription_data`
(src/models/database.py lines 190-230); `cursor.lastrowid` is the id just
assigned to the inserted subscription. -/
def insertSubRows (pending : DBState) (subs : List PSub)
    (oracle : Nat → Bool) (step : Nat) : Option (DBState × Nat) :=
  match subs with
  | [] => some (pending, step)
  | s :: rest =>
    if oracle step then none
    else
      let sid := pending.next_sub_id
      let p2 : DBState :=
        { pending with
            subscriptions := pending.subscriptions ++ [⟨sid, s.name, s.gug_name⟩]
            next_sub_id := sid + 1 }
      match insertQueryRows p2 sid s.queries oracle (step + 1) with
      | none => none
      | some (p3, st3) => insertSubRows p3 rest oracle st3

/-- `save_subscription_data` (src/models/database.py lines 172-239).  Steps 0
and 1 are the two DELETE statements; the following steps are the INSERTs.
The returned `Bool` is `true` when the function returns `True` (commit) and
`false` when some statement raised: then the transaction is rolled back
(`conn.rollback()`) leaving the prior state, and the exception is re-raised
to the caller (`raise e`).  The pre-save backup touches only the backup
directory, not these relations. -/
def save_subscription_data (db : DBState) (payload : List PSub)
    (oracle : Nat → Bool) : Bool × DBState :=
  if oracle 0 then (false, db)
  else if oracle 1 then (false, db)
  else
    match insertSubRows { db with queries := [], subscriptions := [] }
        payload oracle 2 with
    | none => (false, db)
    | some (p, _) => (true, p)

/-- Failure-free reference build of the rows `save_subscription_data` inserts
for a payload, threading the AUTOINCREMENT counters. -/
def buildQueryRows (sid qid : Nat) (qs : List PQuery) : List QueryRow :=
  match qs with
  | [] => []
  | q :: rest => mkQueryRow qid sid q :: buildQueryRows sid (qid + 1) rest

/-- Failure-free reference build of both relations for a payload. -/
def buildRows (sid qid : Nat) (subs : List PSub) : List SubRow × List QueryRow :=
  match subs with
  | [] => ([], [])
  | s :: rest =>
    let qrs := buildQueryRows sid qid s.queries
    let tailRows := buildRows (sid + 1) (qid + s.queries.length) rest
    (⟨sid, s.name, s.gug_name⟩ :: tailRows.1, qrs ++ tailRows.2)

/-- The per-row query reconstruction of `load_subscription_data`
(src/models/database.py lines 276-294): column values are copied verbatim
into the entity; in particular the acknowledgment fields are reported raw,
with no expiry normalization. -/
def queryOfRow (r : QueryRow) : Query :=
  { id := some (r.id : Int)
    query_text := r.query_text
    human_name := r.human_name
    display_name := r.display_name
    last_check_time := r.last_check_time
    next_check_time := r.next_check_time
    next_check_status := r.next_check_status
    paused := r.paused
    dead := r.dead
    checking_now := r.checking_now
    can_check_now := r.can_check_now
    checker_status := r.checker_status
    file_velocity := r.file_velocity
    file_seed_cache_status := r.file_seed_cache_status
    last_file_time := r.last_file_time
    acknowledged := r.acknowledged
    acknowledged_time := r.acknowledged_time }

/-- The successful read path of `load_subscription_data`: the LEFT JOIN with
`ORDER BY s.name, q.query_text`, grouped per subscription id
(src/models/database.py lines 248-301). -/
def loadSubs (db : DBState) : List Subscription :=
  (db.subscriptions.insertionSort (fun a b => a.name ≤ b.name)).map
    (fun s =>
      { name := s.name
        gug_name := s.gug_name
        queries :=
          ((db.queries.filter (fun q => q.subscription_id == s.id)).insertionSort
            (fun a b => a.query_text ≤ b.query_text)).map queryOfRow })

/-- `load_subscription_data` (src/models/database.py lines 241-306).
`connectFail` models `sqlite3.connect` raising at line 243, which is outside
the `try` block and therefore propagates (`Except.error`); `readFail` models
any exception inside the `try` block, which line 304 turns into the sentinel
empty result tagged `"Database Error"`. -/
def load_subscription_data (db : DBState) (connectFail readFail : Bool) :
    Except Unit SubscriptionData :=
  if connectFail then .error ()
  else if readFail then
    .ok { subscriptions := [], version := 80, hydrus_version := "Database Error" }
  else
    .ok { subscriptions := loadSubs db, version := 80,
          hydrus_version := "From Database" }

/-- `update_query_acknowledgment` (src/models/database.py lines 308-324).
`connectFail` models `sqlite3.connect` raising at line 310, outside the
`try`, so it propagates; `execFail` models an exception inside the `try`,
which is caught, rolled back and turned into `False`.  On success the
returned flag is `cursor.rowcount > 0`, the number of rows matched by the
UPDATE's WHERE clause. -/
def update_query_acknowledgment (db : DBState) (query_id : Nat)
    (acknowledged : Bool) (ack_time : Int) (connectFail execFail : Bool) :
    Except Unit Bool × DBState :=
  if connectFail then (.error (), db)
  else if execFail then (.ok false, db)
  else
    let updated := db.queries.map (fun q =>
      if q.id = query_id then
        { q with acknowledged := acknowledged, acknowledged_time := ack_time }
      else q)
    let rowcount := (db.queries.filter (fun q => q.id == query_id)).length
    (.ok (decide (0 < rowcount)), { db with queries := updated })

/-- `update_queries_by_text` (src/models/database.py lines 326-345).  The
scalar subquery `(SELECT id FROM subscriptions WHERE name = ?)` yields the
first matching subscription's id, or NULL when none matches — and an SQL
comparison with NULL matches no row. -/
def update_queries_by_text (db : DBState)
    (query_text human_name subscription_name : String)
    (acknowledged : Bool) (ack_time : Int) (connectFail execFail : Bool) :
    Except Unit Bool × DBState :=
  if connectFail then (.error (), db)
  else if execFail then (.ok false, db)
  else
    let sid := (db.subscriptions.find? (fun s => s.name == subscription_name)).map
      (fun s => s.id)
    let matchRow := fun (q : QueryRow) =>
      q.query_text == query_text && q.human_name == human_name &&
        (match sid with
         | some i => q.subscription_id == i
         | none => false)
    let updated := db.queries.map (fun q =>
      if matchRow q then
        { q with acknowledged := acknowledged, acknowledged_time := ack_time }
      else q)
    let rowcount := (db.queries.filter matchRow).length
    (.ok (decide (0 < rowcount)), { db with queries := updated })

/-- The `acknowledged_time > 0 ∧ acknowledged = false` combination must not
appear in the stored query rows (spec data-model invariant). -/
def ack_invariant (db : DBState) : Prop :=
  ∀ q ∈ db.queries, ¬(q.acknowledged_time > 0 ∧ q.acknowledged = false)

instance (db : DBState) : Decidable (ack_invariant db) := by
  unfold ack_invariant; infer_instance

/-- A database file as `_get_backup_info` sees it: the table list of
`sqlite_master` and the two row counts. -/
structure DBFile where
  tables : List String
  sub_count : Nat
  query_count : Nat
deriving DecidableEq, Repr

/-- The result record of `_get_backup_info`. -/
structure BackupInfo where
  compatible : Bool
  subscription_count : Nat
  query_count : Nat
deriving DecidableEq, Repr

/-- The compatibility check of `_get_backup_info` (src/models/database.py
line 423): both expected tables must be present. -/
def backup_compatible (f : DBFile) : Bool :=
  f.tables.contains "subscriptions" && f.tables.contains "queries"

/-- `_get_backup_info` (src/models/database.py lines 413-445) on a readable
backup file: row counts are only read when the schema is compatible. -/
def get_backup_info (f : DBFile) : BackupInfo :=
  let compatible := backup_compatible f
  { compatible := compatible
    subscription_count := if compatible then f.sub_count else 0
    query_count := if compatible then f.query_count else 0 }

/-- The file-system slice restore operates on: the live store file (absent
when never created) and the named backup files. -/
structure FileSys where
  live : Option DBFile
  files : List (String × DBFile)
deriving DecidableEq, Repr

/-- Path lookup in the modelled file system. -/
def lookupFile (fs : FileSys) (path : String) : Option DBFile :=
  (fs.files.find? (fun f => f.1 == path)).map (fun f => f.2)

/-- The error taxonomy of `restore_from_backup`: `fileNotFound` is the
`FileNotFoundError` of line 453, `incompatible` the `ValueError` of
line 457, `copyFailed` a `shutil.copy2` failure; all are re-raised by
line 472. -/
inductive RestoreError where
  | fileNotFound
  | incompatible
  | copyFailed
deriving DecidableEq, Repr

/-- `restore_from_backup` (src/models/database.py lines 447-472, the later
definition in the class body, which overrides the earlier one): validate
existence, validate compatibility, take a timestamped safety copy
(`safety_name`) of the current store, then overwrite the live store with the
backup.  An error re-raises with the file system unchanged. -/
def restore_from_backup (fs : FileSys) (backup_path safety_name : String) :
    Except RestoreError Unit × FileSys :=
  match lookupFile fs backup_path with
  | none => (.error .fileNotFound, fs)
  | some bf =>
    if (get_backup_info bf).compatible = false then (.error .incompatible, fs)
    else
      match fs.live with
      | none => (.error .copyFailed, fs)
      | some cur =>
        (.ok (), { live := some bf, files := (safety_name, cur) :: fs.files })

/-- A query entity with the given acknowledgment state and last file time;
all remaining fields are fixed innocuous values. -/
def mkTestQuery (ack : Bool) (ack_time lft : Int) : Query :=
  { id := some 1
    query_text := "q"
    human_name := "h"
    display_name := "d"
    last_check_time := 0
    next_check_time := 0
    next_check_status := ""
    paused := false
    dead := false
    checking_now := false
    can_check_now := false
    checker_status := 0
    file_velocity := []
    file_seed_cache_status := ""
    last_file_time := lft
    acknowledged := ack
    acknowledged_time := ack_time }

/-- The spec's sort example, query A: unacknowledged, last file time 100. -/
def qA : Query := mkTestQuery false 0 100

/-- The spec's sort example, query B: unacknowledged, last file time 0. -/
def qB : Query := mkTestQuery false 0 0

/-- The spec's sort example, query C: acknowledged, last file time 50. -/
def qC : Query := mkTestQuery true 0 50

/-- The spec's sort example, query D: unacknowledged, last file time 10. -/
def qD : Query := mkTestQuery false 0 10

/-- One subscription holding the spec's sort example queries in input order
A, B, C, D. -/
def sortExampleData : SubscriptionData :=
  { subscriptions := [{ name := "s", gug_name := "", queries := [qA, qB, qC, qD] }]
    version := 80
    hydrus_version := "x" }

/-- Display rows for the age-ratio counterexample: two unacknowledged rows
spanning [50, 100] and one expired-acknowledged row at 200 (its
acknowledgment lapsed at time 5). -/
def gradientExampleRows : List (String × Query) :=
  [("s", mkTestQuery false 0 50),
   ("s", mkTestQuery false 0 100),
   ("s", mkTestQuery true 5 200)]

/-- A stored query row with default acknowledgment state. -/
def rowA : QueryRow :=
  { id := 1
    subscription_id := 1
    query_text := "q"
    human_name := "h"
    display_name := "d"
    last_check_time := 0
    next_check_time := 0
    next_check_status := ""
    paused := false
    dead := false
    checking_now := false
    can_check_now := false
    checker_status := 0
    file_velocity := []
    file_seed_cache_status := ""
    last_file_time := 10
    acknowledged := false
    acknowledged_time := 0 }

/-- A one-subscription, one-query store. -/
def db1 : DBState :=
  { subscriptions := [⟨1, "s", "g"⟩]
    queries := [rowA]
    next_sub_id := 2
    next_query_id := 2 }

/-- A one-query payload record. -/
def pq1 : PQuery :=
  { query_text := "pq"
    human_name := "ph"
    display_name := "pd"
    last_check_time := 1
    next_check_time := 2
    next_check_status := "ok"
    paused := false
    dead := false
    checking_now := false
    can_check_now := true
    checker_status := 0
    file_velocity := [3]
    file_seed_cache_status := "c"
    last_file_time := 7 }

/-- A one-subscription payload. -/
def payload1 : List PSub := [⟨"sub1", "gug", [pq1]⟩]

/-- The failure oracle under which no sqlite statement raises. -/
def oracleNone : Nat → Bool := fun _ => false

/-- The failure oracle under which the statement at step 2 (the first
INSERT) raises. -/
def oracleAtTwo : Nat → Bool := fun n => n == 2

/-- A schema-compatible backup file with 2 subscriptions and 5 queries. -/
def fileGood : DBFile := ⟨["subscriptions", "queries"], 2, 5⟩

/-- A backup file missing the `queries` table: incompatible. -/
def fileBad : DBFile := ⟨["subscriptions"], 0, 0⟩

/-- The live store file used in the restore scenarios. -/
def liveFile : DBFile := ⟨["subscriptions", "queries"], 1, 1⟩

/-- A file system with a live store and one compatible plus one
incompatible backup. -/
def fs1 : FileSys :=
  { live := some liveFile
    files := [("b1", fileGood), ("b2", fileBad)] }

/-- Truncation toward zero is monotone. -/
theorem py_int_mono {a b : ℚ} (h : a ≤ b) : py_int a ≤ py_int b := by
  unfold py_int
  split_ifs with h1 h2 h2
  · exact Int.floor_le_floor h
  · exact absurd (le_trans h1 h) h2
  · have ha : a ≤ ((0 : ℤ) : ℚ) := by exact_mod_cast le_of_not_le h1
    exact le_trans (Int.ceil_le.mpr ha) (Int.floor_nonneg.mpr h2)
  · exact Int.ceil_le_ceil h

/-- Truncation toward zero fixes integers. -/
theorem py_int_intCast (n : ℤ) : py_int (n : ℚ) = n := by
  unfold py_int
  split_ifs with h
  · exact Int.floor_intCast n
  · exact Int.ceil_intCast n

/-- A left fold by `min` is bounded by its initial value. -/
theorem foldl_min_le_init (ts : List Int) (a : Int) : ts.foldl min a ≤ a := by
  induction ts generalizing a with
  | nil => exact le_refl a
  | cons t ts ih => exact le_trans (ih (min a t)) (min_le_left a t)

/-- A left fold by `min` is bounded by every list element. -/
theorem foldl_min_le_mem {t : Int} (ts : List Int) (a : Int) (h : t ∈ ts) :
    ts.foldl min a ≤ t := by
  induction ts generalizing a with
  | nil => cases h
  | cons b ts ih =>
    rcases List.mem_cons.mp h with rfl | hmem
    · exact le_trans (foldl_min_le_init ts (min a t)) (min_le_right a t)
    · exact ih (min a b) hmem

/-- A left fold by `min` returns the initial value or a list element. -/
theorem foldl_min_mem (ts : List Int) (a : Int) :
    ts.foldl min a = a ∨ ts.foldl min a ∈ ts := by
  induction ts generalizing a with
  | nil => exact Or.inl rfl
  | cons b ts ih =>
    rcases ih (min a b) with h | h
    · rcases min_choice a b with hab | hab
      · exact Or.inl (by rw [List.foldl_cons, h, hab])
      · exact Or.inr (by rw [List.foldl_cons, h, hab]; exact List.mem_cons_self b ts)
    · exact Or.inr (List.mem_cons_of_mem b h)

/-- A left fold by `max` dominates its initial value. -/
theorem le_foldl_max_init (ts : List Int) (a : Int) : a ≤ ts.foldl max a := by
  induction ts generalizing a with
  | nil => exact le_refl a
  | cons t ts ih => exact le_trans (le_max_left a t) (ih (max a t))

/-- A left fold by `max` dominates every list element. -/
theorem le_foldl_max_mem {t : Int} (ts : List Int) (a : Int) (h : t ∈ ts) :
    t ≤ ts.foldl max a := by
  induction ts generalizing a with
  | nil => cases h
  | cons b ts ih =>
    rcases List.mem_cons.mp h with rfl | hmem
    · exact le_trans (le_max_right a t) (le_foldl_max_init ts (max a t))
    · exact ih (max a b) hmem

/-- A left fold by `max` returns the initial value or a list element. -/
theorem foldl_max_mem (ts : List Int) (a : Int) :
    ts.foldl max a = a ∨ ts.foldl max a ∈ ts := by
  induction ts generalizing a with
  | nil => exact Or.inl rfl
  | cons b ts ih =>
    rcases ih (max a b) with h | h
    · rcases max_choice a b with hab | hab
      · exact Or.inl (by rw [List.foldl_cons, h, hab])
      · exact Or.inr (by rw [List.foldl_cons, h, hab]; exact List.mem_cons_self b ts)
    · exact Or.inr (List.mem_cons_of_mem b h)

/-- Inserting an element that satisfies `p` into a list none of whose
`p`-elements strictly precede it leaves the `p`-filter with the element in
front. -/
theorem filter_orderedInsert_pos {α : Type} (r : α → α → Prop) [DecidableRel r]
    (p : α → Bool) (x : α) :
    ∀ l : List α, (∀ b ∈ l, p b = true → r x b) → p x = true →
      (List.orderedInsert r x l).filter p = x :: l.filter p
  | [], _, hpx => by simp [List.orderedInsert, hpx]
  | b :: t, hx, hpx => by
    by_cases hrb : r x b
    · simp [List.orderedInsert, if_pos hrb, List.filter_cons, hpx]
    · have hpb : p b = false := by
        cases hb : p b with
        | false => rfl
        | true => exact absurd (hx b (List.mem_cons_self b t) hb) hrb
      have ih := filter_orderedInsert_pos r p x t
        (fun c hc hpc => hx c (List.mem_cons_of_mem b hc) hpc) hpx
      simp [List.orderedInsert, if_neg hrb, List.filter_cons, hpb, ih]

/-- Inserting an element that fails `p` does not change the `p`-filter. -/
theorem filter_orderedInsert_neg {α : Type} (r : α → α → Prop) [DecidableRel r]
    (p : α → Bool) (x : α) :
    ∀ l : List α, p x = false →
      (List.orderedInsert r x l).filter p = l.filter p
  | [], hpx => by simp [List.orderedInsert, hpx]
  | b :: t, hpx => by
    by_cases hrb : r x b
    · simp [List.orderedInsert, if_pos hrb, List.filter_cons, hpx]
    · have ih := filter_orderedInsert_neg r p x t hpx
      simp [List.orderedInsert, if_neg hrb, List.filter_cons, ih]

/-- Stability of insertion sort, filter form: when any two elements
satisfying `p` are related both ways by `r` (equal keys), sorting does not
change the `p`-filter. -/
theorem filter_insertionSort {α : Type} (r : α → α → Prop) [DecidableRel r]
    (p : α → Bool) (hp : ∀ a b, p a = true → p b = true → r a b) :
    ∀ l : List α, (l.insertionSort r).filter p = l.filter p
  | [] => rfl
  | x :: t => by
    have ih := filter_insertionSort r p hp t
    cases hpx : p x with
    | true =>
      have := filter_orderedInsert_pos r p x (t.insertionSort r)
        (fun b _ hpb => hp x b hpx hpb) hpx
      simp [List.insertionSort, this, ih, List.filter_cons, hpx]
    | false =>
      have := filter_orderedInsert_neg r p x (t.insertionSort r) hpx
      simp [List.insertionSort, this, ih, List.filter_cons, hpx]

/-- A successful query-insert run appends exactly the reference-built rows
and advances the query id counter. -/
theorem insertQueryRows_spec :
    ∀ (qs : List PQuery) (pending : DBState) (sid : Nat) (oracle : Nat → Bool)
      (step : Nat) (p : DBState) (st : Nat),
      insertQueryRows pending sid qs oracle step = some (p, st) →
      p.subscriptions = pending.subscriptions ∧
      p.queries = pending.queries ++ buildQueryRows sid pending.next_query_id qs ∧
      p.next_sub_id = pending.next_sub_id ∧
      p.next_query_id = pending.next_query_id + qs.length
  | [], pending, sid, oracle, step, p, st => by
    intro h
    simp only [insertQueryRows, Option.some.injEq, Prod.mk.injEq] at h
    simp [← h.1, buildQueryRows]
  | q :: rest, pending, sid, oracle, step, p, st => by
    intro h
    simp only [insertQueryRows] at h
    by_cases ho : oracle step
    · simp [ho] at h
    · simp only [ho, if_false, Bool.false_eq_true] at h
      have ih := insertQueryRows_spec rest _ sid oracle (step + 1) p st h
      simp only at ih
      refine ⟨ih.1, ?_, ih.2.2.1, by simpa [Nat.add_comm, Nat.add_assoc,
        Nat.add_left_comm] using ih.2.2.2⟩
      rw [ih.2.1]
      simp [buildQueryRows, List.append_assoc]

/-- A successful subscription-insert run appends exactly the
reference-built rows of both relations. -/
theorem insertSubRows_spec :
    ∀ (subs : List PSub) (pending : DBState) (oracle : Nat → Bool)
      (step : Nat) (p : DBState) (st : Nat),
      insertSubRows pending subs oracle step = some (p, st) →
      p.subscriptions = pending.subscriptions ++
        (buildRows pending.next_sub_id pending.next_query_id subs).1 ∧
      p.queries = pending.queries ++
        (buildRows pending.next_sub_id pending.next_query_id subs).2
  | [], pending, oracle, step, p, st => by
    intro h
    simp only [insertSubRows, Option.some.injEq, Prod.mk.injEq] at h
    simp [← h.1, buildRows]
  | s :: rest, pending, oracle, step, p, st => by
    intro h
    simp only [insertSubRows] at h
    by_cases ho : oracle step
    · simp [ho] at h
    · simp only [ho, if_false, Bool.false_eq_true] at h
      rcases hq : insertQueryRows
          { pending with
              subscriptions := pending.subscriptions ++
                [⟨pending.next_sub_id, s.name, s.gug_name⟩]
              next_sub_id := pending.next_sub_id + 1 }
          pending.next_sub_id s.queries oracle (step + 1) with _ | ⟨p3, st3⟩
      · rw [hq] at h; cases h
      · rw [hq] at h
        have hqs := insertQueryRows_spec s.queries _ pending.next_sub_id
          oracle (step + 1) p3 st3 hq
        simp only at hqs
        have ih := insertSubRows_spec rest p3 oracle st3 p st h
        rw [hqs.1, hqs.2.2.1, hqs.2.2.2] at ih
        constructor
        · rw [ih.1]
          simp [buildRows, List.append_assoc]
        · rw [ih.2, hqs.2.1]
          simp [buildRows, List.append_assoc]

/-- Every row the reference build produces for the queries of one payload
subscription has default acknowledgment state. -/
theorem buildQueryRows_ack :
    ∀ (qs : List PQuery) (sid qid : Nat), ∀ r ∈ buildQueryRows sid qid qs,
      r.acknowledged = false ∧ r.acknowledged_time = 0
  | [], _, _ => by intro r hr; cases hr
  | q :: rest, sid, qid => by
    intro r hr
    rcases List.mem_cons.mp hr with rfl | hmem
    · exact ⟨rfl, rfl⟩
    · exact buildQueryRows_ack rest sid (qid + 1) r hmem

/-- Every query row the reference build produces has default acknowledgment
state. -/
theorem buildRows_ack :
    ∀ (subs : List PSub) (sid qid : Nat), ∀ r ∈ (buildRows sid qid subs).2,
      r.acknowledged = false ∧ r.acknowledged_time = 0
  | [], _, _ => by intro r hr; cases hr
  | s :: rest, sid, qid => by
    intro r hr
    rcases List.mem_append.mp hr with hmem | hmem
    · exact buildQueryRows_ack s.queries sid qid r hmem
    · exact buildRows_ack rest (sid + 1) (qid + s.queries.length) r hmem

/-- Every query of a payload subscription appears in the reference-built
query rows under the given subscription id. -/
theorem buildQueryRows_mem :
    ∀ (qs : List PQuery) (sid qid : Nat) (q : PQuery), q ∈ qs →
      ∃ qid2, mkQueryRow qid2 sid q ∈ buildQueryRows sid qid qs
  | [], _, _, _ => by intro h; cases h
  | q2 :: rest, sid, qid, q => by
    intro h
    rcases List.mem_cons.mp h with rfl | hmem
    · exact ⟨qid, List.mem_cons_self _ _⟩
    · rcases buildQueryRows_mem rest sid (qid + 1) q hmem with ⟨qid2, hq⟩
      exact ⟨qid2, List.mem_cons_of_mem _ hq⟩

/-- Every payload subscription lands in the reference build: with some id it
appears in the subscription relation, and each of its queries appears in the
query relation linked to that id. -/
theorem buildRows_mem :
    ∀ (subs : List PSub) (sid qid : Nat) (s : PSub), s ∈ subs →
      ∃ sid2, (⟨sid2, s.name, s.gug_name⟩ : SubRow) ∈ (buildRows sid qid subs).1 ∧
        ∀ q ∈ s.queries, ∃ qid2, mkQueryRow qid2 sid2 q ∈ (buildRows sid qid subs).2
  | [], _, _, _ => by intro h; cases h
  | s2 :: rest, sid, qid, s => by
    intro h
    rcases List.mem_cons.mp h with rfl | hmem
    · refine ⟨sid, List.mem_cons_self _ _, fun q hq => ?_⟩
      rcases buildQueryRows_mem s.queries sid qid q hq with ⟨qid2, hm⟩
      exact ⟨qid2, List.mem_append_left _ hm⟩
    · rcases buildRows_mem rest (sid + 1) (qid + s2.queries.length) s hmem with
        ⟨sid2, hs, hqs⟩
      refine ⟨sid2, List.mem_cons_of_mem _ hs, fun q hq => ?_⟩
      rcases hqs q hq with ⟨qid2, hm⟩
      exact ⟨qid2, List.mem_append_right _ hm⟩

/-- Claim C1: ingestion is all-or-nothing.  When any statement of
`save_subscription_data` raises (result flag `false`, the re-raised
exception), the rollback leaves the stored subscriptions and queries exactly
as before the attempt; on success the two relations hold exactly the rows
built from the payload — every payload subscription and every payload query
is stored, and all prior rows are replaced. -/
theorem save_subscription_data_atomic (db : DBState) (payload : List PSub)
    (oracle : Nat → Bool) :
    ((save_subscription_data db payload oracle).1 = false →
      (save_subscription_data db payload oracle).2 = db) ∧
    ((save_subscription_data db payload oracle).1 = true →
      (save_subscription_data db payload oracle).2.subscriptions =
        (buildRows db.next_sub_id db.next_query_id payload).1 ∧
      (save_subscription_data db payload oracle).2.queries =
        (buildRows db.next_sub_id db.next_query_id payload).2 ∧
      ∀ s ∈ payload, ∃ sid2,
        (⟨sid2, s.name, s.gug_name⟩ : SubRow) ∈
          (save_subscription_data db payload oracle).2.subscriptions ∧
        ∀ q ∈ s.queries, ∃ qid2,
          mkQueryRow qid2 sid2 q ∈
            (save_subscription_data db payload oracle).2.queries) := by
  unfold save_subscription_data
  by_cases h0 : oracle 0
  · simp [h0]
  · by_cases h1 : oracle 1
    · simp [h0, h1]
    · simp only [h0, h1, Bool.false_eq_true, if_false]
      rcases hrun : insertSubRows { db with queries := [], subscriptions := [] }
          payload oracle 2 with _ | ⟨p, st⟩
      · simp
      · have hspec := insertSubRows_spec payload _ oracle 2 p st hrun
        simp only [List.nil_append] at hspec
        refine ⟨by simp, fun _ => ⟨hspec.1, hspec.2, fun s hs => ?_⟩⟩
        rcases buildRows_mem payload db.next_sub_id db.next_query_id s hs with
          ⟨sid2, hsub, hqs⟩
        refine ⟨sid2, by rw [hspec.1]; exact hsub, fun q hq => ?_⟩
        rcases hqs q hq with ⟨qid2, hm⟩
        exact ⟨qid2, by rw [hspec.2]; exact hm⟩

/-- Witness for the atomicity theorem: with the oracle that fails the first
INSERT, ingesting `payload1` into `db1` leaves `db1` unchanged. -/
theorem save_subscription_data_atomic_witness :
    (save_subscription_data db1 payload1 oracleAtTwo).2 = db1 :=
  (save_subscription_data_atomic db1 payload1 oracleAtTwo).1 (by decide)

/-- Claim C2: `get_all_queries_sorted` sorts the flattened
(subscription name, query) pairs by the ascending composite key —
`(0, last_file_time)` for unacknowledged queries with a positive last file
time, `(1, 0)` for unacknowledged queries with last file time 0, and
`(2, last_file_time)` for acknowledged queries — as a stable sort: the
output is a permutation, pairwise ordered by the key, and the sublist of
elements at any fixed key equals the corresponding input sublist.  On the
spec's example A, B, C, D the order is D, A, B, C. -/
theorem get_all_queries_sorted_spec (data : SubscriptionData)
    (filt : Option String) :
    (get_all_queries_sorted data filt).Pairwise key_le ∧
    (get_all_queries_sorted data filt).Perm (all_query_pairs data filt) ∧
    (∀ kv : Nat × Int,
      (get_all_queries_sorted data filt).filter (fun x => sort_key x == kv) =
        (all_query_pairs data filt).filter (fun x => sort_key x == kv)) ∧
    (∀ p ∈ all_query_pairs data filt,
      (p.2.acknowledged = false → 0 < p.2.last_file_time →
        sort_key p = (0, p.2.last_file_time)) ∧
      (p.2.acknowledged = false → p.2.last_file_time = 0 →
        sort_key p = (1, 0)) ∧
      (p.2.acknowledged = true → sort_key p = (2, p.2.last_file_time))) ∧
    get_all_queries_sorted sortExampleData none =
      [("s", qD), ("s", qA), ("s", qB), ("s", qC)] := by
  refine ⟨List.sorted_insertionSort key_le _,
    List.perm_insertionSort key_le _, fun kv => ?_, fun p _ => ?_, by decide⟩
  · exact filter_insertionSort key_le (fun x => sort_key x == kv)
      (fun a b ha hb => Or.inr
        ⟨by rw [Prod.ext_iff.mp (beq_iff_eq.mp ha) |>.1,
            Prod.ext_iff.mp (beq_iff_eq.mp hb) |>.1],
         by rw [Prod.ext_iff.mp (beq_iff_eq.mp ha) |>.2,
            Prod.ext_iff.mp (beq_iff_eq.mp hb) |>.2]⟩) _
  · refine ⟨fun hack hpos => ?_, fun hack hzero => ?_, fun hack => ?_⟩
    · have hne : p.2.last_file_time ≠ 0 := by omega
      simp [sort_key, hack, hne]
    · simp [sort_key, hack, hzero]
    · simp [sort_key, hack]

/-- Witness for the sort theorem: in the example data, query D carries
composite key `(0, 10)`. -/
theorem get_all_queries_sorted_spec_witness :
    sort_key ("s", qD) = (0, 10) :=
  (((get_all_queries_sorted_spec sortExampleData none).2.2.2.1
    ("s", qD) (by decide)).1 (by decide) (by decide))

/-- Claim C3 fails as stated: the persistence engine performs no
normalization of its arguments, so calling `update_query_acknowledgment`
with `acknowledged = false` and a positive `ack_time` persists the
forbidden `acknowledged_time > 0 ∧ acknowledged = false` combination in a
store that satisfied the invariant before. -/
theorem ack_invariant_counterexample :
    ack_invariant db1 ∧
    ¬ack_invariant (update_query_acknowledgment db1 1 false 5 false false).2 := by
  decide

/-- Claim C3 (amended): every write of the persistence engine preserves the
`acknowledged_time > 0 ∧ acknowledged = false` exclusion provided the
acknowledgment arguments themselves respect it — which holds at every call
site of the program (`acknowledge_queries` passes `(true, timestamp)` and
`unacknowledge_queries` passes `(false, 0)`); ingestion unconditionally
resets every stored row to `(false, 0)`. -/
theorem writes_preserve_ack_invariant :
    (∀ (db : DBState) (qid : Nat) (a : Bool) (t : Int) (cf ef : Bool),
      ack_invariant db → (a = false → t ≤ 0) →
      ack_invariant (update_query_acknowledgment db qid a t cf ef).2) ∧
    (∀ (db : DBState) (qt hn sn : String) (a : Bool) (t : Int) (cf ef : Bool),
      ack_invariant db → (a = false → t ≤ 0) →
      ack_invariant (update_queries_by_text db qt hn sn a t cf ef).2) ∧
    (∀ (db : DBState) (payload : List PSub) (oracle : Nat → Bool),
      ack_invariant db →
      ack_invariant (save_subscription_data db payload oracle).2) := by
  refine ⟨fun db qid a t cf ef hinv harg => ?_,
    fun db qt hn sn a t cf ef hinv harg => ?_,
    fun db payload oracle hinv => ?_⟩
  · unfold update_query_acknowledgment
    by_cases hcf : cf
    · simpa [hcf] using hinv
    · by_cases hef : ef
      · simpa [hcf, hef] using hinv
      · simp only [hcf, hef, Bool.false_eq_true, if_false]
        intro q hq
        rcases List.mem_map.mp hq with ⟨q0, hq0, rfl⟩
        by_cases hid : q0.id = qid
        · simp only [hid, if_true]
          cases a with
          | false => have := harg rfl; simp; omega
          | true => simp
        · simpa [hid] using hinv q0 hq0
  · unfold update_queries_by_text
    by_cases hcf : cf
    · simpa [hcf] using hinv
    · by_cases hef : ef
      · simpa [hcf, hef] using hinv
      · simp only [hcf, hef, Bool.false_eq_true, if_false]
        intro q hq
        rcases List.mem_map.mp hq with ⟨q0, hq0, rfl⟩
        by_cases hid : (q0.query_text == qt && q0.human_name == hn &&
            match (db.subscriptions.find? (fun s => s.name == sn)).map
              (fun s => s.id) with
            | some i => q0.subscription_id == i
            | none => false) = true
        · simp only [hid, if_true]
          cases a with
          | false => have := harg rfl; simp; omega
          | true => simp
        · simpa [hid] using hinv q0 hq0
  · unfold save_subscription_data
    by_cases h0 : oracle 0
    · simpa [h0] using hinv
    · by_cases h1 : oracle 1
      · simpa [h0, h1] using hinv
      · simp only [h0, h1, Bool.false_eq_true, if_false]
        rcases hrun : insertSubRows { db with queries := [], subscriptions := [] }
            payload oracle 2 with _ | ⟨p, st⟩
        · simpa using hinv
        · have hspec := insertSubRows_spec payload _ oracle 2 p st hrun
          simp only [List.nil_append] at hspec
          intro q hq
          rw [hspec.2] at hq
          have := buildRows_ack payload db.next_sub_id db.next_query_id q hq
          omega

/-- Witness for the amended invariant theorem: acknowledging the stored
query of `db1` until time 5 keeps the invariant. -/
theorem writes_preserve_ack_invariant_witness :
    ack_invariant (update_query_acknowledgment db1 1 true 5 false false).2 :=
  writes_preserve_ack_invariant.1 db1 1 true 5 false false (by decide) (by decide)

/-- Claim C4: the displayed color follows the fixed first-match rule order —
acknowledged-and-unexpired, dead, paused, never-had-a-file, degenerate
domain, then the linear age gradient — and is a pure function of
`(last_file_time, min_time, max_time, acknowledged, acknowledged_time,
dead, paused, now)` (it is a Lean function of exactly these data). -/
theorem final_color_priority (q : Query) (now mn mx : Int) :
    (q.acknowledged = true →
      (q.acknowledged_time = 0 ∨ q.acknowledged_time > now) →
      final_color q now mn mx = ⟨200, 255, 200⟩) ∧
    (¬(q.acknowledged = true ∧
        (q.acknowledged_time = 0 ∨ q.acknowledged_time > now)) →
      q.dead = true → final_color q now mn mx = ⟨255, 200, 200⟩) ∧
    (¬(q.acknowledged = true ∧
        (q.acknowledged_time = 0 ∨ q.acknowledged_time > now)) →
      q.dead = false → q.paused = true →
      final_color q now mn mx = ⟨230, 230, 230⟩) ∧
    (¬(q.acknowledged = true ∧
        (q.acknowledged_time = 0 ∨ q.acknowledged_time > now)) →
      q.dead = false → q.paused = false → q.last_file_time = 0 →
      final_color q now mn mx = ⟨240, 240, 240⟩) ∧
    (¬(q.acknowledged = true ∧
        (q.acknowledged_time = 0 ∨ q.acknowledged_time > now)) →
      q.dead = false → q.paused = false → q.last_file_time ≠ 0 → mn = mx →
      final_color q now mn mx = ⟨255, 220, 180⟩) ∧
    (¬(q.acknowledged = true ∧
        (q.acknowledged_time = 0 ∨ q.acknowledged_time > now)) →
      q.dead = false → q.paused = false → q.last_file_time ≠ 0 → mn ≠ mx →
      final_color q now mn mx =
        ⟨255,
         py_int (240 -
           ((mx : ℚ) - (q.last_file_time : ℚ)) / ((mx : ℚ) - (mn : ℚ)) * 100),
         py_int (200 -
           ((mx : ℚ) - (q.last_file_time : ℚ)) / ((mx : ℚ) - (mn : ℚ)) * 140)⟩) := by
  refine ⟨fun ha hc => ?_, fun hr hd => ?_, fun hr hd hp => ?_,
    fun hr hd hp hl => ?_, fun hr hd hp hl hm => ?_, fun hr hd hp hl hm => ?_⟩
  · have hs : get_status_color q q.acknowledged_time now = some ⟨200, 255, 200⟩ := by
      unfold get_status_color; rw [if_pos ⟨ha, hc⟩]
    unfold final_color; rw [hs]
  · have hs : get_status_color q q.acknowledged_time now = some ⟨255, 200, 200⟩ := by
      unfold get_status_color; rw [if_neg hr, if_pos hd]
    unfold final_color; rw [hs]
  · have hs : get_status_color q q.acknowledged_time now = some ⟨230, 230, 230⟩ := by
      unfold get_status_color
      rw [if_neg hr, if_neg (by simp [hd]), if_pos hp]
    unfold final_color; rw [hs]
  · have hs : get_status_color q q.acknowledged_time now = none := by
      unfold get_status_color
      rw [if_neg hr, if_neg (by simp [hd]), if_neg (by simp [hp])]
    unfold final_color
    rw [hs]
    unfold get_color_for_age
    rw [if_pos hl]
  · have hs : get_status_color q q.acknowledged_time now = none := by
      unfold get_status_color
      rw [if_neg hr, if_neg (by simp [hd]), if_neg (by simp [hp])]
    unfold final_color
    rw [hs]
    unfold get_color_for_age
    rw [if_neg hl, if_pos hm]
  · have hs : get_status_color q q.acknowledged_time now = none := by
      unfold get_status_color
      rw [if_neg hr, if_neg (by simp [hd]), if_neg (by simp [hp])]
    unfold final_color
    rw [hs]
    unfold get_color_for_age
    rw [if_neg hl, if_neg hm]

/-- Witness for the color-priority theorem: an unexpired acknowledged query
gets the fixed acknowledged color. -/
theorem final_color_priority_witness :
    final_color (mkTestQuery true 0 10) 100 1 5 = ⟨200, 255, 200⟩ :=
  (final_color_priority (mkTestQuery true 0 10) 100 1 5).1 (by decide) (by decide)

/-- Claim C5 fails as stated: in `gradientExampleRows` (domain rows at 50
and 100, plus an expired-acknowledged row at 200, rendered at `now = 10`)
the expired-acknowledged row reaches the gradient rule — its status color is
`none`, its last file time is nonzero and the domain is non-degenerate — yet
its age ratio is negative, outside `[0, 1]`. -/
theorem age_ratio_counterexample :
    get_status_color (mkTestQuery true 5 200)
      (mkTestQuery true 5 200).acknowledged_time 10 = none ∧
    (mkTestQuery true 5 200).last_file_time ≠ 0 ∧
    (min_max_times gradientExampleRows).1 ≠ (min_max_times gradientExampleRows).2 ∧
    (((min_max_times gradientExampleRows).2 : ℚ) -
        ((mkTestQuery true 5 200).last_file_time : ℚ)) /
      (((min_max_times gradientExampleRows).2 : ℚ) -
        ((min_max_times gradientExampleRows).1 : ℚ)) < 0 := by
  have hmm : min_max_times gradientExampleRows = (50, 100) := by decide
  refine ⟨by decide, by decide, by rw [hmm]; decide, ?_⟩
  rw [hmm]
  norm_num [mkTestQuery]

/-- Claim C5 (amended): `min_time`/`max_time` are computed over exactly the
rows that are simultaneously unacknowledged and have a positive last file
time (the bounds belong to that set and enclose it), and every
*unacknowledged* row that reaches the gradient rule has an age ratio in
`[0, 1]`.  An acknowledged row whose acknowledgment expired can also reach
the gradient rule, and its ratio may fall outside `[0, 1]` (see the
counterexample). -/
theorem min_max_domain_and_ratio (queries : List (String × Query)) :
    (∀ t : Int, t ∈ valid_times queries ↔
      ∃ p ∈ queries, p.2.acknowledged = false ∧ 0 < p.2.last_file_time ∧
        t = p.2.last_file_time) ∧
    (valid_times queries ≠ [] →
      (min_max_times queries).1 ∈ valid_times queries ∧
      (min_max_times queries).2 ∈ valid_times queries) ∧
    (∀ p ∈ queries, p.2.acknowledged = false → 0 < p.2.last_file_time →
      (min_max_times queries).1 ≤ p.2.last_file_time ∧
      p.2.last_file_time ≤ (min_max_times queries).2 ∧
      ((min_max_times queries).1 ≠ (min_max_times queries).2 →
        0 ≤ (((min_max_times queries).2 : ℚ) - (p.2.last_file_time : ℚ)) /
            (((min_max_times queries).2 : ℚ) - ((min_max_times queries).1 : ℚ)) ∧
        (((min_max_times queries).2 : ℚ) - (p.2.last_file_time : ℚ)) /
            (((min_max_times queries).2 : ℚ) - ((min_max_times queries).1 : ℚ)) ≤ 1)) := by
  have hmem : ∀ t : Int, t ∈ valid_times queries ↔
      ∃ p ∈ queries, p.2.acknowledged = false ∧ 0 < p.2.last_file_time ∧
        t = p.2.last_file_time := by
    intro t
    simp only [valid_times, List.mem_map, List.mem_filter, Bool.and_eq_true,
      decide_eq_true_eq, Bool.not_eq_true']
    constructor
    · rintro ⟨p, ⟨hp, hpos, hack⟩, rfl⟩
      exact ⟨p, hp, hack, hpos, rfl⟩
    · rintro ⟨p, hp, hack, hpos, rfl⟩
      exact ⟨p, ⟨hp, hpos, hack⟩, rfl⟩
  have heq : ∀ (t : Int) (ts : List Int), valid_times queries = t :: ts →
      min_max_times queries = (ts.foldl min t, ts.foldl max t) := by
    intro t ts h
    unfold min_max_times
    rw [h]
  refine ⟨hmem, fun hne => ?_, fun p hp hack hpos => ?_⟩
  · rcases hvt : valid_times queries with _ | ⟨t, ts⟩
    · exact absurd hvt hne
    · rw [heq t ts hvt]
      constructor
      · show ts.foldl min t ∈ t :: ts
        rcases foldl_min_mem ts t with h | h
        · rw [h]; exact List.mem_cons_self t ts
        · exact List.mem_cons_of_mem t h
      · show ts.foldl max t ∈ t :: ts
        rcases foldl_max_mem ts t with h | h
        · rw [h]; exact List.mem_cons_self t ts
        · exact List.mem_cons_of_mem t h
  · have hin : p.2.last_file_time ∈ valid_times queries :=
      (hmem p.2.last_file_time).mpr ⟨p, hp, hack, hpos, rfl⟩
    rcases hvt : valid_times queries with _ | ⟨t, ts⟩
    · rw [hvt] at hin; cases hin
    · rw [hvt] at hin
      rw [heq t ts hvt]
      have hlo : ts.foldl min t ≤ p.2.last_file_time := by
        rcases List.mem_cons.mp hin with h | h
        · rw [h]; exact foldl_min_le_init ts t
        · exact foldl_min_le_mem ts t h
      have hhi : p.2.last_file_time ≤ ts.foldl max t := by
        rcases List.mem_cons.mp hin with h | h
        · rw [h]; exact le_foldl_max_init ts t
        · exact le_foldl_max_mem ts t h
      refine ⟨hlo, hhi, fun hne2 => ?_⟩
      have hminmax : ts.foldl min t ≤ ts.foldl max t := le_trans hlo hhi
      have hlt : ts.foldl min t < ts.foldl max t :=
        lt_of_le_of_ne hminmax (by simpa using hne2)
      have hd : (0 : ℚ) < ((ts.foldl max t : ℤ) : ℚ) - ((ts.foldl min t : ℤ) : ℚ) := by
        rw [sub_pos]
        exact Int.cast_lt.mpr hlt
      constructor
      · show (0 : ℚ) ≤ (((ts.foldl max t : ℤ) : ℚ) - (p.2.last_file_time : ℚ)) /
          (((ts.foldl max t : ℤ) : ℚ) - ((ts.foldl min t : ℤ) : ℚ))
        apply div_nonneg _ hd.le
        rw [sub_nonneg]
        exact Int.cast_le.mpr hhi
      · show (((ts.foldl max t : ℤ) : ℚ) - (p.2.last_file_time : ℚ)) /
          (((ts.foldl max t : ℤ) : ℚ) - ((ts.foldl min t : ℤ) : ℚ)) ≤ 1
        rw [div_le_one hd]
        apply sub_le_sub_left
        exact Int.cast_le.mpr hlo

/-- Witness for the amended min/max theorem: in the example rows the lower
bound is below the 50-row's last file time. -/
theorem min_max_domain_and_ratio_witness :
    (min_max_times gradientExampleRows).1 ≤
      ("s", mkTestQuery false 0 50).2.last_file_time :=
  ((min_max_domain_and_ratio gradientExampleRows).2.2
    ("s", mkTestQuery false 0 50) (by decide) (by decide) (by decide)).1

/-- Claim C6: for unacknowledged, non-dead, non-paused queries with last
file times inside `[min_time, max_time]`, the green and blue channels are
non-increasing as the last file time decreases, and when the domain is
non-degenerate the color at `min_time` is strictly darker (strictly smaller
green and blue) than the color at `max_time`. -/
theorem gradient_monotone (q1 q2 : Query) (now mn mx : Int)
    (ha1 : q1.acknowledged = false) (hd1 : q1.dead = false)
    (hp1 : q1.paused = false)
    (ha2 : q2.acknowledged = false) (hd2 : q2.dead = false)
    (hp2 : q2.paused = false)
    (hmn : 0 < mn) (h1 : mn ≤ q1.last_file_time)
    (h12 : q1.last_file_time ≤ q2.last_file_time)
    (h2 : q2.last_file_time ≤ mx) :
    ((final_color q1 now mn mx).green ≤ (final_color q2 now mn mx).green ∧
      (final_color q1 now mn mx).blue ≤ (final_color q2 now mn mx).blue) ∧
    (mn ≠ mx → q1.last_file_time = mn → q2.last_file_time = mx →
      (final_color q1 now mn mx).green < (final_color q2 now mn mx).green ∧
      (final_color q1 now mn mx).blue < (final_color q2 now mn mx).blue) := by
  have hs1 : get_status_color q1 q1.acknowledged_time now = none := by
    unfold get_status_color
    rw [if_neg (by simp [ha1]), if_neg (by simp [hd1]), if_neg (by simp [hp1])]
  have hs2 : get_status_color q2 q2.acknowledged_time now = none := by
    unfold get_status_color
    rw [if_neg (by simp [ha2]), if_neg (by simp [hd2]), if_neg (by simp [hp2])]
  have hf1 : final_color q1 now mn mx =
      get_color_for_age q1.last_file_time mn mx := by
    unfold final_color; rw [hs1]
  have hf2 : final_color q2 now mn mx =
      get_color_for_age q2.last_file_time mn mx := by
    unfold final_color; rw [hs2]
  have hl1 : q1.last_file_time ≠ 0 := by omega
  have hl2 : q2.last_file_time ≠ 0 := by omega
  by_cases hmm : mn = mx
  · have e1 : q1.last_file_time = mn := by omega
    have e2 : q2.last_file_time = mn := by omega
    have hc1 : get_color_for_age q1.last_file_time mn mx = ⟨255, 220, 180⟩ := by
      unfold get_color_for_age; rw [if_neg hl1, if_pos hmm]
    have hc2 : get_color_for_age q2.last_file_time mn mx = ⟨255, 220, 180⟩ := by
      unfold get_color_for_age; rw [if_neg hl2, if_pos hmm]
    rw [hf1, hf2, hc1, hc2]
    exact ⟨⟨le_refl _, le_refl _⟩, fun hne => absurd hmm hne⟩
  · have hc1 : get_color_for_age q1.last_file_time mn mx =
        ⟨255,
         py_int (240 - ((mx : ℚ) - (q1.last_file_time : ℚ)) /
           ((mx : ℚ) - (mn : ℚ)) * 100),
         py_int (200 - ((mx : ℚ) - (q1.last_file_time : ℚ)) /
           ((mx : ℚ) - (mn : ℚ)) * 140)⟩ := by
      unfold get_color_for_age; rw [if_neg hl1, if_neg hmm]
    have hc2 : get_color_for_age q2.last_file_time mn mx =
        ⟨255,
         py_int (240 - ((mx : ℚ) - (q2.last_file_time : ℚ)) /
           ((mx : ℚ) - (mn : ℚ)) * 100),
         py_int (200 - ((mx : ℚ) - (q2.last_file_time : ℚ)) /
           ((mx : ℚ) - (mn : ℚ)) * 140)⟩ := by
      unfold get_color_for_age; rw [if_neg hl2, if_neg hmm]
    have hlt : mn < mx := lt_of_le_of_ne (by omega) hmm
    have hd : (0 : ℚ) < (mx : ℚ) - (mn : ℚ) := by
      rw [sub_pos]; exact Int.cast_lt.mpr hlt
    have hrr : ((mx : ℚ) - (q2.last_file_time : ℚ)) / ((mx : ℚ) - (mn : ℚ)) ≤
        ((mx : ℚ) - (q1.last_file_time : ℚ)) / ((mx : ℚ) - (mn : ℚ)) :=
      (div_le_div_iff_of_pos_right hd).mpr
        (sub_le_sub_left (Int.cast_le.mpr h12) (mx : ℚ))
    rw [hf1, hf2, hc1, hc2]
    refine ⟨⟨py_int_mono (by linarith), py_int_mono (by linarith)⟩,
      fun _ he1 he2 => ?_⟩
    have hr1 : ((mx : ℚ) - (q1.last_file_time : ℚ)) / ((mx : ℚ) - (mn : ℚ)) = 1 := by
      rw [he1]
      exact div_self (ne_of_gt hd)
    have hr2 : ((mx : ℚ) - (q2.last_file_time : ℚ)) / ((mx : ℚ) - (mn : ℚ)) = 0 := by
      rw [he2]
      simp
    have e140 : py_int (240 - 1 * 100) = 140 := by
      have h := py_int_intCast 140
      rw [show ((140 : ℤ) : ℚ) = 240 - 1 * 100 by norm_num] at h
      exact h
    have e240 : py_int (240 - 0 * 100) = 240 := by
      have h := py_int_intCast 240
      rw [show ((240 : ℤ) : ℚ) = 240 - 0 * 100 by norm_num] at h
      exact h
    have e60 : py_int (200 - 1 * 140) = 60 := by
      have h := py_int_intCast 60
      rw [show ((60 : ℤ) : ℚ) = 200 - 1 * 140 by norm_num] at h
      exact h
    have e200 : py_int (200 - 0 * 140) = 200 := by
      have h := py_int_intCast 200
      rw [show ((200 : ℤ) : ℚ) = 200 - 0 * 140 by norm_num] at h
      exact h
    constructor
    · show py_int _ < py_int _
      rw [hr1, hr2, e140, e240]
      decide
    · show py_int _ < py_int _
      rw [hr1, hr2, e60, e200]
      decide

/-- Witness for the gradient-monotonicity theorem: with domain `[10, 20]`,
the green channel at last file time 10 is at most the one at 20. -/
theorem gradient_monotone_witness :
    (final_color (mkTestQuery false 0 10) 0 10 20).green ≤
      (final_color (mkTestQuery false 0 20) 0 10 20).green :=
  (gradient_monotone (mkTestQuery false 0 10) (mkTestQuery false 0 20) 0 10 20
    (by decide) (by decide) (by decide) (by decide) (by decide) (by decide)
    (by decide) (by decide) (by decide) (by decide)).1.1

/-- Claim C7 fails at the edge `now = 1`: there `acknowledged_time = now - 1`
equals 0, which color rule 1 reads as "acknowledged with no expiry", so the
query does receive the fixed acknowledged color instead of falling
through. -/
theorem ack_expiry_counterexample :
    (mkTestQuery true 0 10).acknowledged = true ∧
    (mkTestQuery true 0 10).acknowledged_time = 1 - 1 ∧
    get_status_color (mkTestQuery true 0 10)
      (mkTestQuery true 0 10).acknowledged_time 1 = some ⟨200, 255, 200⟩ := by
  decide

/-- Claim C7 (amended): a query is acknowledgment-expired iff it is
acknowledged with a nonzero acknowledgment time at or before `now`; a query
acknowledged until `now - 1` does not receive the fixed acknowledged color
provided `now - 1 ≠ 0` (for `now = 1` the stored 0 means "no expiry", see
the counterexample), while one acknowledged until `now + 3600` always does;
and the loaded entity reports the stored acknowledgment fields verbatim —
expiry is evaluated only at render time, never written back. -/
theorem ack_expiry_semantics (q : Query) (now : Int) :
    (is_expired_acknowledgment q now = true ↔
      q.acknowledged = true ∧ q.acknowledged_time ≠ 0 ∧
        q.acknowledged_time ≤ now) ∧
    (q.acknowledged = true → q.acknowledged_time = now - 1 →
      q.acknowledged_time ≠ 0 →
      get_status_color q q.acknowledged_time now ≠ some ⟨200, 255, 200⟩) ∧
    (q.acknowledged = true → q.acknowledged_time = now + 3600 →
      get_status_color q q.acknowledged_time now = some ⟨200, 255, 200⟩) ∧
    (∀ r : QueryRow, (queryOfRow r).acknowledged = r.acknowledged ∧
      (queryOfRow r).acknowledged_time = r.acknowledged_time) := by
  refine ⟨?_, fun hack ht hne => ?_, fun hack ht => ?_, fun r => ⟨rfl, rfl⟩⟩
  · unfold is_expired_acknowledgment
    cases hb : q.acknowledged with
    | false => simp [hb]
    | true =>
      by_cases h0 : q.acknowledged_time = 0
      · simp [h0]
      · simp [h0, hb]
  · unfold get_status_color
    have hcond : ¬(q.acknowledged = true ∧
        (q.acknowledged_time = 0 ∨ q.acknowledged_time > now)) := by
      rintro ⟨-, h0 | hgt⟩
      · exact hne h0
      · omega
    rw [if_neg hcond]
    split_ifs <;> simp
  · unfold get_status_color
    rw [if_pos ⟨hack, Or.inr (by omega)⟩]

/-- Witness for the acknowledgment-expiry theorem: a query acknowledged
until 3600 seconds from a render at `now = 0` gets the acknowledged
color. -/
theorem ack_expiry_semantics_witness :
    get_status_color (mkTestQuery true 3600 10)
      (mkTestQuery true 3600 10).acknowledged_time 0 = some ⟨200, 255, 200⟩ :=
  (ack_expiry_semantics (mkTestQuery true 3600 10) 0).2.2.1 (by decide) (by decide)

/-- Claim C8 fails as stated: `sqlite3.connect` is called outside the `try`
block of `load_subscription_data`, so a failure to open the storage
connection propagates instead of producing the sentinel result. -/
theorem load_raises_counterexample :
    load_subscription_data db1 true false = Except.error () := rfl

/-- Claim C8 (amended): once the storage connection opens,
`load_subscription_data` never raises; any failure during the read degrades
to the empty result carrying the sentinel `"Database Error"` string, and a
clean read returns the reconstructed subscription graph tagged
`"From Database"`.  Only a failure of `sqlite3.connect` itself (outside the
`try` block) propagates. -/
theorem load_soft_failure (db : DBState) (rf : Bool) :
    (load_subscription_data db false rf ≠ Except.error ()) ∧
    (load_subscription_data db false true =
      Except.ok ⟨[], 80, "Database Error"⟩) ∧
    (load_subscription_data db false false =
      Except.ok ⟨loadSubs db, 80, "From Database"⟩) := by
  unfold load_subscription_data
  refine ⟨?_, rfl, rfl⟩
  cases rf <;> simp

/-- Witness for the soft-failure theorem: a failed read of `db1` yields the
sentinel empty result. -/
theorem load_soft_failure_witness :
    load_subscription_data db1 false true =
      Except.ok ⟨[], 80, "Database Error"⟩ :=
  (load_soft_failure db1 true).2.1

/-- Claim C9: `restore_from_backup` raises `fileNotFound` when the target is
missing and `incompatible` when the target fails the schema check, in both
cases leaving the live store (and hence its row counts) untouched; on a
valid target it first writes a safety copy of the current store under the
timestamped name and only then overwrites the live store with the backup. -/
theorem restore_safety (fs : FileSys) (bpath sname : String) :
    (lookupFile fs bpath = none →
      restore_from_backup fs bpath sname = (.error .fileNotFound, fs)) ∧
    (∀ bf, lookupFile fs bpath = some bf → backup_compatible bf = false →
      restore_from_backup fs bpath sname = (.error .incompatible, fs)) ∧
    (∀ bf cur, lookupFile fs bpath = some bf → backup_compatible bf = true →
      fs.live = some cur →
      restore_from_backup fs bpath sname =
        (.ok (), { live := some bf, files := (sname, cur) :: fs.files })) := by
  refine ⟨fun h => ?_, fun bf hb hc => ?_, fun bf cur hb hc hl => ?_⟩
  · unfold restore_from_backup
    rw [h]
  · unfold restore_from_backup
    rw [hb]
    simp [get_backup_info, hc]
  · unfold restore_from_backup
    rw [hb]
    simp [get_backup_info, hc, hl]

/-- Witness for the restore-safety theorem: restoring the incompatible
backup `b2` errors and leaves the file system unchanged. -/
theorem restore_safety_witness :
    restore_from_backup fs1 "b2" "safety" = (.error .incompatible, fs1) :=
  (restore_safety fs1 "b2" "safety").2.1 fileBad (by decide) (by decide)

/-- Claim C10 fails as stated: `sqlite3.connect` is called outside the `try`
block of both update functions, so a failure to open the storage connection
propagates instead of returning `False`. -/
theorem update_raises_counterexample :
    (update_query_acknowledgment db1 1 true 5 true false).1 = Except.error () ∧
    (update_queries_by_text db1 "q" "h" "s" true 5 true false).1 =
      Except.error () :=
  ⟨rfl, rfl⟩

/-- Claim C10 (amended): once the storage connection opens, the two
acknowledgment updates never raise; an error during the update rolls back —
every stored acknowledgment value is unchanged — and returns `false`; a
clean run returns `true` exactly when at least one row matches the WHERE
clause (the rows the UPDATE touches).  Only a failure of `sqlite3.connect`
itself (outside the `try` block) propagates. -/
theorem update_ack_semantics :
    (∀ (db : DBState) (qid : Nat) (a : Bool) (t : Int),
      (∀ ef, (update_query_acknowledgment db qid a t false ef).1 ≠
        Except.error ()) ∧
      update_query_acknowledgment db qid a t false true = (.ok false, db) ∧
      ((update_query_acknowledgment db qid a t false false).1 = .ok true ↔
        ∃ q ∈ db.queries, q.id = qid)) ∧
    (∀ (db : DBState) (qt hn sn : String) (a : Bool) (t : Int),
      (∀ ef, (update_queries_by_text db qt hn sn a t false ef).1 ≠
        Except.error ()) ∧
      update_queries_by_text db qt hn sn a t false true = (.ok false, db) ∧
      ((update_queries_by_text db qt hn sn a t false false).1 = .ok true ↔
        ∃ q ∈ db.queries,
          (q.query_text == qt && q.human_name == hn &&
            (match (db.subscriptions.find? (fun s => s.name == sn)).map
              (fun s => s.id) with
             | some i => q.subscription_id == i
             | none => false)) = true)) := by
  constructor
  · intro db qid a t
    refine ⟨fun ef => ?_, by unfold update_query_acknowledgment; simp, ?_⟩
    · cases ef <;> unfold update_query_acknowledgment <;> simp
    · unfold update_query_acknowledgment
      simp [List.length_pos_iff_exists_mem, List.mem_filter]
  · intro db qt hn sn a t
    refine ⟨fun ef => ?_, by unfold update_queries_by_text; simp, ?_⟩
    · cases ef <;> unfold update_queries_by_text <;> simp
    · unfold update_queries_by_text
      simp [List.length_pos_iff_exists_mem, List.mem_filter]

/-- Witness for the update-semantics theorem: acknowledging the existing
query id 1 in `db1` reports an affected row. -/
theorem update_ack_semantics_witness :
    (update_query_acknowledgment db1 1 true 5 false false).1 = Except.ok true :=
  ((update_ack_semantics.1 db1 1 true 5).2.2).mpr ⟨rowA, by decide, by decide⟩

end HydrusSubMonitor
